import Mathlib

/-!
Verification development for the VeoScripter application: a shallow
embedding of its keyframe sampling pipeline (`VideoProcessor.processVideo`),
its remote analysis gateway (`geminiService.regenerateScenes`), and its
orchestration handlers (`App.handleFramesExtracted`,
`App.handleRegenerateScenes`, `App.handleError`, `App.handleReset`,
`ResultsDisplay.handleSceneClick`), together with theorems settling the
stated properties of these operations.

Conventions of the embedding:
- JavaScript numbers are modelled as rationals (the arithmetic in the
  source is exact on the inputs considered; no floating point rounding is
  modelled).
- Asynchronous remote calls are modelled by passing the outcome of the
  call (`Except`) to the handler; the code that runs after an `await` is
  additionally exposed as an explicit continuation function on the state
  observed at response time, so that late responses can be reasoned about.
- `setTimeout` calls are modelled as explicitly scheduled `Timer` values,
  and the `useEffect` that clears `errorMsg` after 5000 ms is modelled by
  `errorEffectTimers`, computed from the state produced by a handler.
-/

/-! ## Data model (`types.ts`) -/

/-- `ExtractedFrame` from `types.ts`: `{ id, dataUrl, timestamp }`. -/
structure ExtractedFrame where
  id : Nat
  dataUrl : String
  timestamp : ℚ
  deriving DecidableEq, Repr

/-- `Scene` from `types.ts`: `{ id, description, veoPrompt }`. -/
structure Scene where
  id : Int
  description : String
  veoPrompt : String
  deriving DecidableEq, Repr

/-- `AnalysisResult` from `types.ts`:
`{ script, veoPrompt, visualStyle, scenes }`. -/
structure AnalysisResult where
  script : String
  veoPrompt : String
  visualStyle : String
  scenes : List Scene
  deriving DecidableEq, Repr

/-- `AppState` enum from `types.ts`. -/
inductive AppState where
  | IDLE
  | PROCESSING_VIDEO
  | ANALYZING_AI
  | COMPLETED
  | ERROR
  deriving DecidableEq, Repr

/-! ## Analysis gateway (`services/geminiService.ts`) -/

/-- The shape that the response schema of `regenerateScenes` guarantees for
a successfully parsed response body: an object with a required `scenes`
array. -/
structure ResplitData where
  scenes : List Scene
  deriving DecidableEq, Repr

/-- Possible outcomes of the `ai.models.generateContent` call followed by
reading `response.text` and `JSON.parse`, as observed by
`regenerateScenes`: the remote call may reject or the parse may throw
(`failed`), the response text may be absent (`noText`), or the text parses
to a body matching the response schema (`json`). -/
inductive RemoteResponse where
  | failed (e : String)
  | noText
  | json (data : ResplitData)
  deriving DecidableEq, Repr

/-- `regenerateScenes` from `services/geminiService.ts`, lines 82-143.
The frame payload and `sceneCount` only enter the request (the prompt asks
for EXACTLY `sceneCount` scenes); the function then returns
`data.scenes` of the parsed response. The source performs no validation of
`data.scenes.length` against `sceneCount`: the only failure paths are a
rejected remote call or parse error (rethrown by the catch block) and an
absent response text (`throw new Error("No response from Gemini")`). -/
def regenerateScenes (frames : List String) (sceneCount : Nat)
    (resp : RemoteResponse) : Except String (List Scene) :=
  match resp with
  | .failed e => .error e
  | .noText => .error "No response from Gemini"
  | .json data => .ok data.scenes

/-! ## Frame sampler (`components/VideoProcessor.tsx`, `processVideo`) -/

/-- The readable properties of the `video` element that `processVideo`
consults. `duration = none` models `!duration || duration === Infinity`
(unknown, zero, NaN or infinite duration). -/
structure VideoLike where
  duration : Option ℚ
  videoWidth : ℚ
  videoHeight : ℚ
  deriving DecidableEq, Repr

/-- Outcome of one run of `processVideo`: `error msg` models a call to
`onError(msg)`, `frames l` models `onFramesExtracted(l)`, and `hang`
models the run in which an awaited seek promise is never resolved (the
promise installed for the seeked event has no timeout, so control never
proceeds and no callback is ever invoked). -/
inductive SampleOutcome where
  | error (msg : String)
  | hang
  | frames (l : List ExtractedFrame)
  deriving DecidableEq, Repr

/-- Whether a `processVideo` run ever reaches a callback (either
`onError` or `onFramesExtracted`). -/
def SampleOutcome.completes : SampleOutcome → Bool
  | .hang => false
  | _ => true

/-- `const frameCount = 8;` in `processVideo`. -/
def frameCount : Nat := 8

/-- `const maxDim = 512;` in `processVideo`. -/
def maxDim : ℚ := 512

/-- The `scale` computation of `processVideo`, lines 392-395:
`scale = 1` unless `videoWidth > maxDim || videoHeight > maxDim`, in which
case `scale = Math.min(maxDim / videoWidth, maxDim / videoHeight)`. -/
def computeScale (w h : ℚ) : ℚ :=
  if maxDim < w ∨ maxDim < h then min (maxDim / w) (maxDim / h) else 1

/-- `canvas.width = video.videoWidth * scale;` (line 396). -/
def canvasWidth (w h : ℚ) : ℚ := w * computeScale w h

/-- `canvas.height = video.videoHeight * scale;` (line 397). -/
def canvasHeight (w h : ℚ) : ℚ := h * computeScale w h

/-- The sampling loop of `processVideo`, lines 400-418, iterating
`i = start, start+1, ...` for `steps` iterations with accumulator `acc`
(the `frames` array). Per iteration: `time = interval * i`; the decoder
is seeked and the loop awaits the seeked event — `signals i` says whether
that event ever fires for iteration `i` (if not, the await never resolves
and the run hangs). `encode i` is the combined outcome of the fallible
rasterize-and-encode step (`ctx.drawImage` / `canvas.toDataURL`): a thrown
error lands in the enclosing catch, which calls
`onError("Failed to process video frames.")`; a success yields the data
URL pushed with `{id: i, timestamp: time, dataUrl}`. -/
def processLoop (interval : ℚ) (signals : Nat → Bool)
    (encode : Nat → Except String String) :
    Nat → Nat → List ExtractedFrame → SampleOutcome
  | 0, _, acc => .frames acc
  | steps + 1, i, acc =>
    if signals i then
      match encode i with
      | .error _ => .error "Failed to process video frames."
      | .ok url =>
          processLoop interval signals encode steps (i + 1)
            (acc ++ [⟨i, url, interval * (i : ℚ)⟩])
    else .hang

/-- `processVideo` from `components/VideoProcessor.tsx`, lines 368-424:
checks the duration (`onError("Unable to determine video duration.")` when
unavailable), computes `interval = duration / (frameCount + 1)`, checks the
2d context (`onError("Browser canvas not supported.")` when missing), sizes
the canvas (see `canvasWidth`/`canvasHeight`), then runs the sampling loop
for `i = 1..frameCount` and on completion calls `onFramesExtracted`. -/
def processVideo (v : VideoLike) (ctxAvailable : Bool)
    (signals : Nat → Bool) (encode : Nat → Except String String) :
    SampleOutcome :=
  match v.duration with
  | none => .error "Unable to determine video duration."
  | some d =>
    if ctxAvailable then
      processLoop (d / ((frameCount : ℚ) + 1)) signals encode frameCount 1 []
    else .error "Browser canvas not supported."

/-- The seek targets computed by the sampling loop for a pass of `count`
frames over a video of length `d`: the loop runs `i = 1..count` with
`time = interval * i` and `interval = d / (count + 1)`. -/
def sampleTimestamps (d : ℚ) (count : Nat) : List ℚ :=
  (List.range count).map fun (j : Nat) => d / ((count : ℚ) + 1) * ((j : ℚ) + 1)

/-! ## Orchestrator (`App.tsx`) -/

/-- The reactive state of the `App` component: the four `useState` hooks
`appState`, `frames`, `result`, `errorMsg`. -/
structure AppSt where
  appState : AppState
  frames : List ExtractedFrame
  result : Option AnalysisResult
  errorMsg : Option String
  deriving DecidableEq, Repr

/-- The state-mutating effects that the `setTimeout` calls of `App` can
schedule: `setStateIdle` models `setAppState(AppState.IDLE)` and
`clearMsg` models `setErrorMsg(null)`. -/
inductive TimerEffect where
  | setStateIdle
  | clearMsg
  deriving DecidableEq, Repr

/-- A scheduled `setTimeout`: delay in milliseconds plus its effect. -/
structure Timer where
  delayMs : Nat
  eff : TimerEffect
  deriving DecidableEq, Repr

/-- Firing one timer against the component state. -/
def applyTimer (s : AppSt) (t : Timer) : AppSt :=
  match t.eff with
  | .setStateIdle => { s with appState := .IDLE }
  | .clearMsg => { s with errorMsg := none }

/-- Firing a list of timers in order. -/
def runTimers (s : AppSt) (ts : List Timer) : AppSt := ts.foldl applyTimer s

/-- The `useEffect` of `App.tsx` (lines 14-19): whenever `errorMsg` is
non-null it schedules `setErrorMsg(null)` after 5000 ms. Computed from the
state a handler leaves behind. -/
def errorEffectTimers (s : AppSt) : List Timer :=
  match s.errorMsg with
  | some _ => [⟨5000, .clearMsg⟩]
  | none => []

/-- Continuation of `handleFramesExtracted` after `analyzeVideoFrames`
resolves successfully (lines 33-34): `setResult(aiResult)` then
`setAppState(AppState.COMPLETED)`, applied to whatever state is current at
response time — the source attaches no session or generation tag to the
call. -/
def analyzeResponseOk (r : AnalysisResult) (s : AppSt) : AppSt :=
  { s with result := some r, appState := .COMPLETED }

/-- Continuation of `handleFramesExtracted` when `analyzeVideoFrames`
rejects (lines 35-39): `setAppState(AppState.ERROR)` and a fixed error
message. Note: this catch block schedules no `setTimeout`. -/
def analyzeResponseErr (s : AppSt) : AppSt :=
  { s with appState := .ERROR,
           errorMsg := some "Failed to analyze video with Gemini. Please try again." }

/-- `handleFramesExtracted` from `App.tsx`, lines 26-40, with the outcome
of the awaited `analyzeVideoFrames` call passed in as `gw`. Returns the
resulting state together with the list of timers the handler itself
schedules (none: neither branch calls `setTimeout`). -/
def handleFramesExtracted (gw : Except String AnalysisResult)
    (extractedFrames : List ExtractedFrame) (s : AppSt) :
    AppSt × List Timer :=
  let s1 := { s with frames := extractedFrames, appState := AppState.ANALYZING_AI }
  match gw with
  | .ok r => (analyzeResponseOk r s1, [])
  | .error _ => (analyzeResponseErr s1, [])

/-- Continuation of `handleRegenerateScenes` after the gateway call
resolves successfully (lines 54-60):
`setResult(prev => prev ? { ...prev, scenes: newScenes } : null)`,
applied to whatever state is current at response time. -/
def regenResponseOk (newScenes : List Scene) (s : AppSt) : AppSt :=
  match s.result with
  | none => s
  | some prev => { s with result := some { prev with scenes := newScenes } }

/-- Continuation of `handleRegenerateScenes` when the gateway call rejects
(lines 61-64): only `setErrorMsg` is called. -/
def regenResponseErr (s : AppSt) : AppSt :=
  { s with errorMsg := some "Failed to update scenes. Please try again." }

/-- `handleRegenerateScenes` from `App.tsx`, lines 42-65, with the outcome
of the awaited `regenerateScenes` gateway call passed in as `gw`. The
boolean records whether the gateway call was issued: the guard
`if (!result || frames.length === 0) return;` exits before the call. -/
def handleRegenerateScenes (gw : Except String (List Scene)) (s : AppSt) :
    AppSt × Bool :=
  match s.result with
  | none => (s, false)
  | some _ =>
    if s.frames.isEmpty then (s, false)
    else
      match gw with
      | .ok newScenes => (regenResponseOk newScenes s, true)
      | .error _ => (regenResponseErr s, true)

/-- `handleError` from `App.tsx`, lines 67-72: moves to `ERROR`, records
the message, and schedules `setAppState(AppState.IDLE)` after 2000 ms. -/
def handleError (msg : String) (s : AppSt) : AppSt × List Timer :=
  ({ s with appState := .ERROR, errorMsg := some msg }, [⟨2000, .setStateIdle⟩])

/-- `handleReset` from `App.tsx`, lines 74-79: unconditionally restores
the initial state. -/
def handleReset : AppSt :=
  { appState := .IDLE, frames := [], result := none, errorMsg := none }

/-- `handleSceneClick` from `components/ResultsDisplay.tsx`, lines 31-36,
acting on the `regeneratingScenes` local state. The returned boolean
records whether `onRegenerateScenes` is invoked: when a regeneration is
already pending (`regeneratingScenes !== null`) the handler returns
immediately — no state change and no gateway call; otherwise it sets
`regeneratingScenes` to `count` and invokes `onRegenerateScenes(count)`
(resetting to null only after that call resolves). -/
def handleSceneClick (regeneratingScenes : Option Nat) (count : Nat) :
    Option Nat × Bool :=
  match regeneratingScenes with
  | some k => (some k, false)
  | none => (some count, true)

/-! ## Helper lemmas about the sampling loop -/

/-- If the sampling loop delivers a frame list, that list extends the
accumulator by exactly one frame per remaining iteration, with timestamps
`interval * i` for the consecutive loop indices, and every iteration in
the window had its seek signalled and its encode succeed. -/
lemma processLoop_frames_spec (interval : ℚ) (signals : Nat → Bool)
    (encode : Nat → Except String String) :
    ∀ (steps start : Nat) (acc l : List ExtractedFrame),
      processLoop interval signals encode steps start acc = .frames l →
      l.map ExtractedFrame.timestamp
          = acc.map ExtractedFrame.timestamp
            ++ (List.range steps).map (fun j => interval * ((start + j : Nat) : ℚ)) ∧
      l.length = acc.length + steps ∧
      (∀ k, start ≤ k → k < start + steps →
        signals k = true ∧ ∃ u, encode k = .ok u) := by
  intro steps
  induction steps with
  | zero =>
    intro start acc l h
    simp only [processLoop, SampleOutcome.frames.injEq] at h
    subst h
    refine ⟨by simp, by simp, ?_⟩
    intro k hk1 hk2
    omega
  | succ n ih =>
    intro start acc l h
    cases hsig : signals start with
    | false => simp [processLoop, hsig] at h
    | true =>
      simp only [processLoop, hsig, if_true] at h
      cases henc : encode start with
      | error e => simp [henc] at h
      | ok u =>
        simp only [henc] at h
        obtain ⟨hts, hlen, hok⟩ := ih (start + 1) _ l h
        refine ⟨?_, ?_, ?_⟩
        · rw [hts, List.map_append, List.append_assoc]
          congr 1
          rw [List.range_succ_eq_map]
          simp only [List.map_cons, List.map_nil, List.nil_append, List.map_map]
          refine congr_arg₂ List.cons (by norm_num) ?_
          apply List.map_congr_left
          intro j _
          simp only [Function.comp_apply, Nat.succ_eq_add_one]
          congr 1
          push_cast
          ring
        · simp only [List.length_append, List.length_cons, List.length_nil] at hlen
          omega
        · intro k hk1 hk2
          rcases Nat.eq_or_lt_of_le hk1 with rfl | hlt
          · exact ⟨hsig, u, henc⟩
          · exact hok k hlt (by omega)

/-- With every seek signalled, an encode failure anywhere in the remaining
window makes the loop report the catch-all error. -/
lemma processLoop_error_of_encode_fail (interval : ℚ) (signals : Nat → Bool)
    (encode : Nat → Except String String) (hsig : ∀ j, signals j = true) :
    ∀ (steps start : Nat) (acc : List ExtractedFrame) (k : Nat),
      start ≤ k → k < start + steps → (∃ e, encode k = .error e) →
      processLoop interval signals encode steps start acc
        = .error "Failed to process video frames." := by
  intro steps
  induction steps with
  | zero =>
    intro start acc k h1 h2 _
    omega
  | succ n ih =>
    intro start acc k h1 h2 hk
    simp only [processLoop, hsig start, if_true]
    cases henc : encode start with
    | error e => simp
    | ok u =>
      have hne : k ≠ start := by
        rintro rfl
        obtain ⟨e, he⟩ := hk
        rw [he] at henc
        cases henc
      exact ih (start + 1) _ k (by omega) (by omega) hk

/-! ## Claims about the frame sampler -/

/-- C1: for every finite positive duration and count at least 1, the
sampling pass computes its seek targets as
`timestamp_i = duration * i / (count + 1)` for `i = 1..count`; a
successful pass of the sampling loop returns exactly `count` frames whose
timestamps are these targets, strictly increasing and all strictly between
`0` and `duration`; in particular duration `18` with count `8` yields the
timestamps `2, 4, 6, 8, 10, 12, 14, 16`. -/
theorem C1_sampling_seek_targets (d : ℚ) (count : Nat)
    (hd : 0 < d) (hc : 1 ≤ count) :
    ((sampleTimestamps d count).length = count ∧
      (∀ i : Nat, 1 ≤ i → i ≤ count →
        (sampleTimestamps d count)[i - 1]? = some (d * (i : ℚ) / ((count : ℚ) + 1))) ∧
      (sampleTimestamps d count).Pairwise (· < ·) ∧
      (∀ t ∈ sampleTimestamps d count, 0 < t ∧ t < d) ∧
      (∀ (signals : Nat → Bool) (encode : Nat → Except String String)
          (l : List ExtractedFrame),
        processLoop (d / ((count : ℚ) + 1)) signals encode count 1 [] = .frames l →
        l.map ExtractedFrame.timestamp = sampleTimestamps d count ∧
        l.length = count)) ∧
    sampleTimestamps 18 8 = [2, 4, 6, 8, 10, 12, 14, 16] := by
  have hc1 : (0 : ℚ) < (count : ℚ) + 1 := by positivity
  have hint : 0 < d / ((count : ℚ) + 1) := div_pos hd hc1
  refine ⟨⟨by simp [sampleTimestamps], ?_, ?_, ?_, ?_⟩, ?_⟩
  · intro i h1 h2
    have hidx : i - 1 < count := by omega
    simp only [sampleTimestamps, List.getElem?_map, List.getElem?_range hidx,
      Option.map_some']
    rw [Nat.cast_sub h1]
    congr 1
    push_cast
    ring
  · refine List.Pairwise.map _ ?_ (List.pairwise_lt_range count)
    intro a b hab
    have hq : ((a : ℚ) + 1) < ((b : ℚ) + 1) := by
      have : (a : ℚ) < (b : ℚ) := by exact_mod_cast hab
      linarith
    exact mul_lt_mul_of_pos_left hq hint
  · intro t ht
    simp only [sampleTimestamps, List.mem_map, List.mem_range] at ht
    obtain ⟨j, hj, rfl⟩ := ht
    refine ⟨mul_pos hint (by positivity), ?_⟩
    have hjc : ((j : ℚ) + 1) < ((count : ℚ) + 1) := by
      have : (j : ℚ) < (count : ℚ) := by exact_mod_cast hj
      linarith
    calc d / ((count : ℚ) + 1) * ((j : ℚ) + 1)
        < d / ((count : ℚ) + 1) * ((count : ℚ) + 1) :=
          mul_lt_mul_of_pos_left hjc hint
      _ = d := div_mul_cancel₀ d (ne_of_gt hc1)
  · intro signals encode l h
    obtain ⟨hts, hlen, -⟩ :=
      processLoop_frames_spec _ signals encode count 1 [] l h
    refine ⟨?_, by simpa using hlen⟩
    rw [hts]
    simp only [List.map_nil, List.nil_append, sampleTimestamps]
    apply List.map_congr_left
    intro j _
    congr 1
    push_cast
    ring
  · simp [sampleTimestamps, List.range_succ]
    norm_num

/-- Witness for C1 at duration `18`, count `8`. -/
theorem C1_sampling_seek_targets_witness :
    sampleTimestamps 18 8 = [2, 4, 6, 8, 10, 12, 14, 16] :=
  (C1_sampling_seek_targets 18 8 (by norm_num) (by norm_num)).2

/-- C4: sampling is all-or-nothing — if the rasterize-or-encode step
throws on some frame `i ≤ frameCount`, then `onFramesExtracted` is never
invoked (no frame sequence, in particular no partial one, is delivered),
and whenever every seek signals, the run reports the failure through
`onError`. -/
theorem C4_sampling_all_or_nothing (signals : Nat → Bool)
    (encode : Nat → Except String String) (d w ht : ℚ) (i : Nat) (e : String)
    (h1 : 1 ≤ i) (h2 : i ≤ frameCount) (hfail : encode i = .error e) :
    (∀ l, processVideo ⟨some d, w, ht⟩ true signals encode ≠ .frames l) ∧
    ((∀ j, signals j = true) →
      processVideo ⟨some d, w, ht⟩ true signals encode
        = .error "Failed to process video frames.") := by
  constructor
  · intro l hl
    simp only [processVideo, if_true] at hl
    obtain ⟨-, -, hok⟩ :=
      processLoop_frames_spec _ signals encode frameCount 1 [] l hl
    obtain ⟨-, u, hu⟩ := hok i h1 (by omega)
    rw [hfail] at hu
    cases hu
  · intro hsig
    simp only [processVideo, if_true]
    exact processLoop_error_of_encode_fail _ signals encode hsig
      frameCount 1 [] i h1 (by omega) ⟨e, hfail⟩

/-- Witness for C4: with every seek signalling and the encode step failing
on frame 5 of 8, the run reports the failure. -/
theorem C4_sampling_all_or_nothing_witness :
    processVideo ⟨some 18, 640, 360⟩ true (fun _ => true)
        (fun j => if j = 5 then Except.error "encode failed" else Except.ok "data")
      = SampleOutcome.error "Failed to process video frames." :=
  (C4_sampling_all_or_nothing (fun _ => true) _ 18 640 360 5 "encode failed"
      (by norm_num) (by norm_num [frameCount]) rfl).2 (fun _ => rfl)

/-- C8 counterexample: the seek-and-render wait of `processVideo` has no
timeout — the promise awaited in the loop resolves only on the seeked
event. With a decoder that never fires that event, the concrete run below
never completes: it neither fails (no SeekTimeout — no such failure mode
exists in the code) nor returns frames, contradicting the claim that a
bounded timeout makes `sample` always terminate. -/
theorem C8_seek_wait_counterexample :
    processVideo ⟨some 18, 640, 360⟩ true (fun _ => false) (fun _ => Except.ok "data")
        = SampleOutcome.hang ∧
    SampleOutcome.completes
        (processVideo ⟨some 18, 640, 360⟩ true (fun _ => false)
          (fun _ => Except.ok "data"))
      = false :=
  ⟨rfl, rfl⟩

/-- C8 amended: no timeout guards the per-frame seek wait — the loop
proceeds past a frame only when the decoder fires the seeked event, and
with a decoder that never signals, the sampling pass suspends forever,
delivering neither frames nor an error. -/
theorem C8_seek_wait_unguarded (d w ht : ℚ)
    (encode : Nat → Except String String) :
    processVideo ⟨some d, w, ht⟩ true (fun _ => false) encode
      = SampleOutcome.hang := rfl

/-- C9: the rasterization surface is sized by
`scale = min(1, maxDim/width, maxDim/height)` applied uniformly to both
axes; when a source dimension exceeds `maxDim`, both output dimensions are
at most `maxDim`; the output aspect ratio equals the source one; and when
both source dimensions are already within `maxDim` the surface keeps the
source dimensions (no upscaling). -/
theorem C9_uniform_scaling (w h : ℚ) (hw : 0 < w) (hh : 0 < h) :
    computeScale w h = min 1 (min (maxDim / w) (maxDim / h)) ∧
    ((maxDim < w ∨ maxDim < h) →
      max (canvasWidth w h) (canvasHeight w h) ≤ maxDim) ∧
    canvasWidth w h / canvasHeight w h = w / h ∧
    (w ≤ maxDim → h ≤ maxDim → canvasWidth w h = w ∧ canvasHeight w h = h) := by
  have hM : (0 : ℚ) < maxDim := by norm_num [maxDim]
  have hscale : 0 < computeScale w h := by
    unfold computeScale
    split
    · exact lt_min (div_pos hM hw) (div_pos hM hh)
    · norm_num
  refine ⟨?_, ?_, ?_, ?_⟩
  · unfold computeScale
    by_cases hcase : maxDim < w ∨ maxDim < h
    · rw [if_pos hcase]
      have hle : min (maxDim / w) (maxDim / h) ≤ 1 := by
        rcases hcase with hcw | hch
        · exact (min_le_left _ _).trans (le_of_lt ((div_lt_one hw).mpr hcw))
        · exact (min_le_right _ _).trans (le_of_lt ((div_lt_one hh).mpr hch))
      exact (min_eq_right hle).symm
    · rw [if_neg hcase]
      push_neg at hcase
      have h1 : (1 : ℚ) ≤ maxDim / w := (one_le_div hw).mpr hcase.1
      have h2 : (1 : ℚ) ≤ maxDim / h := (one_le_div hh).mpr hcase.2
      exact (min_eq_left (le_min h1 h2)).symm
  · intro hcase
    have hsc : computeScale w h = min (maxDim / w) (maxDim / h) := by
      unfold computeScale
      rw [if_pos hcase]
    have hcw : canvasWidth w h ≤ maxDim := by
      rw [canvasWidth, hsc]
      calc w * min (maxDim / w) (maxDim / h)
          ≤ w * (maxDim / w) :=
            mul_le_mul_of_nonneg_left (min_le_left _ _) (le_of_lt hw)
        _ = maxDim := by rw [mul_comm, div_mul_cancel₀ _ (ne_of_gt hw)]
    have hch : canvasHeight w h ≤ maxDim := by
      rw [canvasHeight, hsc]
      calc h * min (maxDim / w) (maxDim / h)
          ≤ h * (maxDim / h) :=
            mul_le_mul_of_nonneg_left (min_le_right _ _) (le_of_lt hh)
        _ = maxDim := by rw [mul_comm, div_mul_cancel₀ _ (ne_of_gt hh)]
    exact max_le hcw hch
  · rw [canvasWidth, canvasHeight, mul_comm w, mul_comm h,
      mul_div_mul_left _ _ (ne_of_gt hscale)]
  · intro h1 h2
    have hone : computeScale w h = 1 := by
      unfold computeScale
      rw [if_neg]
      push_neg
      exact ⟨h1, h2⟩
    simp [canvasWidth, canvasHeight, hone]

/-- Witness for C9 at a 1024 by 768 source against the 512 limit. -/
theorem C9_uniform_scaling_witness :
    max (canvasWidth 1024 768) (canvasHeight 1024 768) ≤ maxDim ∧
    canvasWidth 1024 768 / canvasHeight 1024 768 = 1024 / 768 :=
  ⟨(C9_uniform_scaling 1024 768 (by norm_num) (by norm_num)).2.1
      (Or.inl (by norm_num [maxDim])),
    (C9_uniform_scaling 1024 768 (by norm_num) (by norm_num)).2.2.1⟩

/-! ## Claims about the orchestrator and the gateway -/

/-- C2: on a `COMPLETED` session with stored result `r` and cached frames,
`handleRegenerateScenes` either succeeds — leaving the stored result equal
to `r` except that `scenes` is replaced wholesale by the returned list,
with `script`, `veoPrompt` and `visualStyle` identical and the app state,
frames and error message untouched — or fails, leaving the stored result
exactly `r` and the app state untouched while surfacing an error message;
no partial scene list is ever stored. -/
theorem C2_regenerate_scoped (s : AppSt) (r : AnalysisResult)
    (gw : Except String (List Scene))
    (hres : s.result = some r) (hfr : s.frames ≠ []) :
    (∀ newScenes, gw = .ok newScenes →
      (handleRegenerateScenes gw s).1.result
          = some { script := r.script, veoPrompt := r.veoPrompt,
                   visualStyle := r.visualStyle, scenes := newScenes } ∧
      (handleRegenerateScenes gw s).1.appState = s.appState ∧
      (handleRegenerateScenes gw s).1.frames = s.frames ∧
      (handleRegenerateScenes gw s).1.errorMsg = s.errorMsg ∧
      (handleRegenerateScenes gw s).2 = true) ∧
    (∀ e, gw = .error e →
      (handleRegenerateScenes gw s).1.result = some r ∧
      (handleRegenerateScenes gw s).1.appState = s.appState ∧
      (handleRegenerateScenes gw s).1.frames = s.frames ∧
      (handleRegenerateScenes gw s).1.errorMsg
          = some "Failed to update scenes. Please try again." ∧
      (handleRegenerateScenes gw s).2 = true) := by
  have hie : s.frames.isEmpty = false := by
    cases hsf : s.frames with
    | nil => exact absurd hsf hfr
    | cons a rest => rfl
  constructor
  · rintro ns rfl
    simp [handleRegenerateScenes, hres, hie, regenResponseOk]
  · rintro e rfl
    simp [handleRegenerateScenes, hres, hie, regenResponseErr]

/-- Witness for C2 on a concrete `COMPLETED` session with a successful
gateway outcome. -/
theorem C2_regenerate_scoped_witness :
    (handleRegenerateScenes (Except.ok [⟨1, "new scene", "new prompt"⟩])
        ⟨AppState.COMPLETED, [⟨1, "frameUrl", 2⟩],
          some ⟨"old script", "old prompt", "old style", [⟨7, "old", "oldp"⟩]⟩,
          none⟩).1.result
      = some ⟨"old script", "old prompt", "old style",
              [⟨1, "new scene", "new prompt"⟩]⟩ ∧
    (handleRegenerateScenes (Except.ok [⟨1, "new scene", "new prompt"⟩])
        ⟨AppState.COMPLETED, [⟨1, "frameUrl", 2⟩],
          some ⟨"old script", "old prompt", "old style", [⟨7, "old", "oldp"⟩]⟩,
          none⟩).1.appState = AppState.COMPLETED ∧
    (handleRegenerateScenes (Except.ok [⟨1, "new scene", "new prompt"⟩])
        ⟨AppState.COMPLETED, [⟨1, "frameUrl", 2⟩],
          some ⟨"old script", "old prompt", "old style", [⟨7, "old", "oldp"⟩]⟩,
          none⟩).1.frames = [⟨1, "frameUrl", 2⟩] ∧
    (handleRegenerateScenes (Except.ok [⟨1, "new scene", "new prompt"⟩])
        ⟨AppState.COMPLETED, [⟨1, "frameUrl", 2⟩],
          some ⟨"old script", "old prompt", "old style", [⟨7, "old", "oldp"⟩]⟩,
          none⟩).1.errorMsg = none ∧
    (handleRegenerateScenes (Except.ok [⟨1, "new scene", "new prompt"⟩])
        ⟨AppState.COMPLETED, [⟨1, "frameUrl", 2⟩],
          some ⟨"old script", "old prompt", "old style", [⟨7, "old", "oldp"⟩]⟩,
          none⟩).2 = true :=
  (C2_regenerate_scoped
      ⟨AppState.COMPLETED, [⟨1, "frameUrl", 2⟩],
        some ⟨"old script", "old prompt", "old style", [⟨7, "old", "oldp"⟩]⟩,
        none⟩
      ⟨"old script", "old prompt", "old style", [⟨7, "old", "oldp"⟩]⟩
      (Except.ok [⟨1, "new scene", "new prompt"⟩]) rfl (by simp)).1
    [⟨1, "new scene", "new prompt"⟩] rfl

/-- C10: calling the regenerate-scenes handler with no stored result or an
empty cached frame sequence is a complete no-op — the state is returned
unchanged and no gateway call is issued. -/
theorem C10_regenerate_guard_noop (gw : Except String (List Scene))
    (s : AppSt) (h : s.result = none ∨ s.frames = []) :
    handleRegenerateScenes gw s = (s, false) := by
  rcases h with h | h
  · simp [handleRegenerateScenes, h]
  · cases hres : s.result with
    | none => simp [handleRegenerateScenes, hres]
    | some r => simp [handleRegenerateScenes, hres, h]

/-- Witness for C10 with no stored result. -/
theorem C10_regenerate_guard_noop_witness :
    handleRegenerateScenes (Except.ok [⟨1, "d", "p"⟩])
        ⟨AppState.COMPLETED, [], none, none⟩
      = (⟨AppState.COMPLETED, [], none, none⟩, false) :=
  C10_regenerate_guard_noop _ _ (Or.inl rfl)

/-- C6: a `regenerateScenes` request arriving while a previous one is
still pending (`regeneratingScenes = some k`) is a no-op: the
`regeneratingScenes` state is unchanged and `onRegenerateScenes` is not
invoked, so no second gateway call is ever started. -/
theorem C6_single_resplit_in_flight (k count : Nat) :
    handleSceneClick (some k) count = (some k, false) := rfl

/-- C3 counterexample: `regenerateScenes` asked for exactly 3 scenes but
given a well-formed remote response containing 2 scenes returns them as a
success — a scene-count mismatch is not treated as a failure. -/
theorem C3_count_mismatch_counterexample :
    regenerateScenes ["f1", "f2"] 3
        (RemoteResponse.json ⟨[⟨1, "a", "pa"⟩, ⟨2, "b", "pb"⟩]⟩)
      = Except.ok [⟨1, "a", "pa"⟩, ⟨2, "b", "pb"⟩] ∧
    ([(⟨1, "a", "pa"⟩ : Scene), ⟨2, "b", "pb"⟩] : List Scene).length ≠ 3 :=
  ⟨rfl, by decide⟩

/-- C3 amended: `regenerateScenes` performs no scene-count validation —
whenever the remote response parses, the call succeeds and returns exactly
the scenes array of the response, whatever its length; its only failure
paths are a rejected remote call or parse error and an absent response
text. -/
theorem C3_no_count_validation (frames : List String) (sceneCount : Nat)
    (data : ResplitData) (e : String) :
    regenerateScenes frames sceneCount (RemoteResponse.json data)
        = Except.ok data.scenes ∧
    regenerateScenes frames sceneCount RemoteResponse.noText
        = Except.error "No response from Gemini" ∧
    regenerateScenes frames sceneCount (RemoteResponse.failed e)
        = Except.error e :=
  ⟨rfl, rfl, rfl⟩

/-- C5: evaluation of the failing scenario. When the initial
`analyzeVideoFrames` call fails after successful frame extraction, the
catch block of `handleFramesExtracted` schedules no timer at all: the only
scheduled timer is the 5000 ms `errorMsg` clear from the error effect, and
after every scheduled timer has fired the app state is still `ERROR` (with
the error reason cleared) — the session never returns to `IDLE`. By
contrast, `handleError` (the sampling-failure path) does schedule the
2000 ms return to `IDLE` that the claim describes. -/
theorem C5_analyze_failure_never_returns_to_idle :
    (handleFramesExtracted (Except.error "network failure") [⟨1, "frameUrl", 2⟩]
        ⟨AppState.PROCESSING_VIDEO, [], none, none⟩).2 = [] ∧
    errorEffectTimers
        (handleFramesExtracted (Except.error "network failure") [⟨1, "frameUrl", 2⟩]
          ⟨AppState.PROCESSING_VIDEO, [], none, none⟩).1
      = [⟨5000, TimerEffect.clearMsg⟩] ∧
    (runTimers
        (handleFramesExtracted (Except.error "network failure") [⟨1, "frameUrl", 2⟩]
          ⟨AppState.PROCESSING_VIDEO, [], none, none⟩).1
        ((handleFramesExtracted (Except.error "network failure") [⟨1, "frameUrl", 2⟩]
            ⟨AppState.PROCESSING_VIDEO, [], none, none⟩).2
          ++ errorEffectTimers
              (handleFramesExtracted (Except.error "network failure")
                [⟨1, "frameUrl", 2⟩]
                ⟨AppState.PROCESSING_VIDEO, [], none, none⟩).1)).appState
      = AppState.ERROR ∧
    (runTimers
        (handleFramesExtracted (Except.error "network failure") [⟨1, "frameUrl", 2⟩]
          ⟨AppState.PROCESSING_VIDEO, [], none, none⟩).1
        ((handleFramesExtracted (Except.error "network failure") [⟨1, "frameUrl", 2⟩]
            ⟨AppState.PROCESSING_VIDEO, [], none, none⟩).2
          ++ errorEffectTimers
              (handleFramesExtracted (Except.error "network failure")
                [⟨1, "frameUrl", 2⟩]
                ⟨AppState.PROCESSING_VIDEO, [], none, none⟩).1)).errorMsg
      = none ∧
    (handleError "Failed to process video frames."
        ⟨AppState.PROCESSING_VIDEO, [], none, none⟩).2
      = [⟨2000, TimerEffect.setStateIdle⟩] :=
  ⟨rfl, rfl, rfl, rfl, rfl⟩

/-- C7 counterexample: remote calls carry no session or generation tag, so
a late `regenerateScenes` response is applied to whatever state is current
when it arrives. Concretely: a resplit is issued in one session, the user
resets, a new session completes with a fresh stored result, and then the
stale response resolves — its continuation (the `setResult` updater of
`handleRegenerateScenes`) overwrites the new session result with the stale
scene list instead of discarding it. -/
theorem C7_late_response_counterexample :
    (regenResponseOk [⟨9, "stale", "stale prompt"⟩]
        ⟨AppState.COMPLETED, [],
          some ⟨"new script", "new prompt", "new style", [⟨1, "d", "p"⟩]⟩,
          none⟩).result
      = some ⟨"new script", "new prompt", "new style",
              [⟨9, "stale", "stale prompt"⟩]⟩ ∧
    some (⟨"new script", "new prompt", "new style",
            [⟨9, "stale", "stale prompt"⟩]⟩ : AnalysisResult)
      ≠ some (⟨"new script", "new prompt", "new style",
            [⟨1, "d", "p"⟩]⟩ : AnalysisResult) := by
  refine ⟨rfl, ?_⟩
  simp

/-- C7 amended: no generation tagging exists. The only discarding of a
late resplit response is the null-result guard in its `setResult` updater:
immediately after a reset (stored result still absent) a late scene list
leaves the state unchanged; a late `analyzeVideoFrames` response, however,
unconditionally stores its result and moves the session to `COMPLETED`,
whatever state it arrives in. -/
theorem C7_no_generation_tagging (newScenes : List Scene)
    (r : AnalysisResult) (s : AppSt) :
    regenResponseOk newScenes handleReset = handleReset ∧
    (analyzeResponseOk r s).result = some r ∧
    (analyzeResponseOk r s).appState = AppState.COMPLETED :=
  ⟨rfl, rfl, rfl⟩
